import Mathlib

/-!
Verification of the client-side event-stream normalization and
session/control state-machine layer of the browser-control application.

Modelling conventions (shallow embedding of the TypeScript source):
* JavaScript objects with optional fields become Lean structures with
  `Option` fields; `undefined` is `none`.
* String truthiness (`if (s)`) is `truthy`: `none` and `some ""` are falsy.
* ISO-8601 timestamp strings are represented by their epoch value in
  milliseconds (`Nat`); `new Date(ts).getTime()` is the identity.
* React component state is modelled as a record threaded explicitly
  through the handlers; a state setter takes effect immediately, and a
  synchronous `window.dispatchEvent` runs all subscribed handlers before
  the dispatching function continues.
* Network calls are oracles: each handler takes booleans describing the
  outcome of the remote calls it performs and returns the resulting state
  together with the list of externally visible effects (HTTP commands,
  toast notifications, dispatched DOM events).
* `(ms / 1000).toFixed(2)` followed by `parseFloat` is represented by the
  rounded number of centiseconds (`(ms + 5) / 10`), so a processing time
  of 2.50 seconds is the value `250`.
-/

namespace BrowserNova

/-- JavaScript truthiness of an optional string: `undefined` and `""` are falsy. -/
def truthy : Option String → Bool
  | none => false
  | some s => s != ""

/-- JavaScript `a || b` for an optional string `a` and a string default `b`. -/
def jsOrStr : Option String → String → String
  | none, b => b
  | some s, b => if s == "" then b else s

/-- JavaScript `s.includes(pat)` (substring containment, for nonempty `pat`). -/
def containsSub (s pat : String) : Bool := (s.splitOn pat).length != 1

/-- JavaScript `s.toLowerCase()`. -/
def lowerStr (s : String) : String := s.map Char.toLower

/-- Truthiness of an optional number (`0` is falsy). -/
def natTruthy : Option Nat → Bool
  | none => false
  | some n => n != 0

/-- The `screenshot` sub-object of an event's `technical_details`. -/
structure ScreenshotField where
  data : Option String := none
  url : Option String := none
deriving Repr, DecidableEq

/-- The `arguments` sub-object of an event's `technical_details`. -/
structure ArgsField where
  instruction : Option String := none
  url : Option String := none
  description : Option String := none
deriving Repr, DecidableEq

/-- The `result` sub-object of an event's `technical_details`. -/
structure ResultField where
  message : Option String := none
  url : Option String := none
deriving Repr, DecidableEq

/-- The open `technical_details` bag carried by events and Thoughts.
`processing_time_sec` is stored in centiseconds (see module conventions);
`processing_time_ms` is the signed millisecond delta. -/
structure TechDetails where
  tool_name : Option String := none
  arguments : Option ArgsField := none
  result : Option ResultField := none
  screenshot : Option ScreenshotField := none
  url : Option String := none
  screenshotId : Option String := none
  processing_time_ms : Option Int := none
  processing_time_sec : Option Nat := none
deriving Repr, DecidableEq

/-- The `chart_data` object inside a visualization event; `dataArray` is the
truthiness of `chartData.data && Array.isArray(chartData.data)`. -/
structure ChartDataField where
  chartType : Option String := none
  dataArray : Bool := false
deriving Repr, DecidableEq

/-- The `visualization` sub-object of an event. -/
structure VisField where
  chart_data : Option ChartDataField := none
  chart_title : Option String := none
deriving Repr, DecidableEq

/-- An arbitrary inbound event object, with the fields the handlers probe. -/
structure EventData where
  type : Option String := none
  node : Option String := none
  category : Option String := none
  content : Option String := none
  message : Option String := none
  timestamp : Option Nat := none
  status : Option String := none
  final_answer : Bool := false
  technical_details : Option TechDetails := none
  visualization : Option VisField := none
deriving Repr, DecidableEq

/-- One normalized timeline entry (interface `Thought` in the source). -/
structure Thought where
  id : String
  type : Option String := none
  node : Option String := none
  category : Option String := none
  content : String := ""
  timestamp : Option Nat := none
  technical_details : Option TechDetails := none
deriving Repr, DecidableEq

/-- Source `generateId`: the `Date.now()`-and-random suffix is abstracted to
the current time; ids are opaque and only their uniqueness shape matters. -/
def generateId (pre : String) (now : Nat) : String := pre ++ "-" ++ toString now

/-- Source `shouldFilterEvent`: the recognized event types. -/
def validTypes : List String :=
  ["thought", "reasoning", "tool_call", "tool_result", "question",
   "visualization", "thinking", "rationale", "error", "answer", "result",
   "browser_status", "others", "user_control"]

/-- Source `shouldFilterEvent`: the recognized event nodes. -/
def validNodes : List String :=
  ["User", "Browser", "Agent", "NovaAct", "Answer", "complete", "Router",
   "Others", "User Control"]

/-- JavaScript `list.includes(x)` where `x` may be `undefined`. -/
def memOpt (l : List String) : Option String → Bool
  | none => false
  | some s => l.contains s

/-- Source `shouldFilterEvent` (`timerUtils.ts`). -/
def shouldFilterEvent (e : EventData) : Bool :=
  if e.type == some "ping" || e.type == some "heartbeat" then true
  else if !(memOpt validTypes e.type) && !(memOpt validNodes e.node) &&
          e.category != some "screenshot" &&
          e.category != some "visualization_data" &&
          e.category != some "user_control" then true
  else false

/-- URL probing used for screenshot-bearing events: explicit url field, nested
result url, nested screenshot url, tool-argument url; first truthy wins. -/
def resolveUrl (td : Option TechDetails) : String :=
  if truthy (td.bind (·.url)) then (td.bind (·.url)).getD ""
  else if truthy ((td.bind (·.result)).bind (·.url)) then
    ((td.bind (·.result)).bind (·.url)).getD ""
  else if truthy ((td.bind (·.screenshot)).bind (·.url)) then
    ((td.bind (·.screenshot)).bind (·.url)).getD ""
  else if truthy ((td.bind (·.arguments)).bind (·.url)) then
    ((td.bind (·.arguments)).bind (·.url)).getD ""
  else ""

/-- Source `normalizeThoughtData` (`eventService.ts`), branch for branch. -/
def normalizeThoughtData (now : Nat) (e : EventData) : Thought :=
  let currentTimestamp : Nat := e.timestamp.getD now
  if e.type == some "question" then
    { id := generateId "user-question" now, type := some "question",
      node := some "User", category := some "user_input",
      content := jsOrStr e.content "", timestamp := some currentTimestamp,
      technical_details := e.technical_details }
  else if e.type == some "visualization" || e.category == some "screenshot" ||
          (e.category == some "visualization_data" &&
           (e.technical_details.bind (·.screenshot)).isSome) then
    { id := generateId "browser-shot" now, type := some "visualization",
      node := some "Browser", category := some "screenshot",
      content := jsOrStr e.content "Browser screenshot",
      timestamp := some currentTimestamp,
      technical_details :=
        some { (e.technical_details.getD {}) with
               url := some (resolveUrl e.technical_details) } }
  else if e.type == some "tool_call" &&
          truthy (e.technical_details.bind (·.tool_name)) then
    let toolName := (e.technical_details.bind (·.tool_name)).getD ""
    let args := (e.technical_details.bind (·.arguments)).getD {}
    let content :=
      if toolName == "act" && args.instruction.isSome then
        "Instructing browser: \"" ++ args.instruction.getD "" ++ "\""
      else if toolName == "navigate" && args.url.isSome then
        "Navigating to: " ++ args.url.getD ""
      else if toolName == "extract_data" && args.description.isSome then
        "Extracting data: " ++ args.description.getD ""
      else jsOrStr e.content ""
    { id := generateId "agent-tool" now, type := some "tool_call",
      node := some "Agent", category := some "tool", content := content,
      timestamp := some currentTimestamp,
      technical_details := e.technical_details }
  else if e.type == some "tool_result" &&
          truthy (e.technical_details.bind (·.tool_name)) then
    let result := (e.technical_details.bind (·.result)).getD {}
    { id := generateId "nova-result" now, type := some "tool_result",
      node := some "NovaAct", category := some "tool",
      content := jsOrStr result.message (jsOrStr e.content "Tool execution complete"),
      timestamp := some currentTimestamp,
      technical_details := e.technical_details }
  else if e.type == some "reasoning" || e.type == some "thinking" ||
          e.type == some "rationale" then
    { id := generateId "reasoning" now, type := some "reasoning",
      node := some (jsOrStr e.node "Agent"),
      category := some (jsOrStr e.category "analysis"),
      content := jsOrStr e.content "", timestamp := some currentTimestamp,
      technical_details := e.technical_details }
  else if e.type == some "user_control" || e.category == some "user_control" then
    { id := generateId "user-control" now, type := some "user_control",
      node := some (jsOrStr e.node "User Control"),
      category := some "user_control", content := jsOrStr e.content "",
      timestamp := some currentTimestamp,
      technical_details := e.technical_details }
  else
    let nodeType := lowerStr (jsOrStr e.node "")
    let nodeCategory :=
      if containsSub nodeType "browser" then "Browser"
      else if containsSub nodeType "nova" || containsSub nodeType "act" then "NovaAct"
      else if containsSub nodeType "agent" || containsSub nodeType "llm" then "Agent"
      else "Others"
    if e.node == some "Others" then
      { id := generateId "others-event" now, type := e.type,
        node := some "Others", category := e.category,
        content := jsOrStr e.content (jsOrStr e.message ""),
        timestamp := some currentTimestamp,
        technical_details := e.technical_details }
    else
      { id := generateId "thought" now, type := some (jsOrStr e.type "reasoning"),
        node := some nodeCategory, category := e.category,
        content := jsOrStr e.content (jsOrStr e.message ""),
        timestamp := some currentTimestamp,
        technical_details := e.technical_details }

/-- Predicate on Thoughts used by `calculateProcessingTime` to find the most
recent prior question (`t.node === 'User' || t.type === 'question'`). -/
def isQuestionT (t : Thought) : Bool :=
  t.node == some "User" || t.type == some "question"

/-- Predicate for answer-like Thoughts (`t.node === 'Answer' || t.category === 'result'`). -/
def isAnswerLike (t : Thought) : Bool :=
  t.node == some "Answer" || t.category == some "result"

/-- The `processing_time_sec` stored in an optional `technical_details` bag. -/
def tdPts (td : Option TechDetails) : Option Nat := td.bind (·.processing_time_sec)

/-- Source: `[...thoughts].reverse().find(t => t.node === 'User' || t.type === 'question')`. -/
def lastUserQuestion (thoughts : List Thought) : Option Thought :=
  thoughts.reverse.find? isQuestionT

/-- The predicate inside the `hasExistingAnswer` search of `calculateProcessingTime`. -/
def existingAnswerPred (lq : Option Thought) (t : Thought) : Bool :=
  isAnswerLike t && natTruthy (tdPts t.technical_details) &&
  (match lq with
   | some q => q.timestamp.isSome
   | none => false) &&
  t.timestamp.isSome &&
  decide ((t.timestamp.getD 0) > ((lq.bind (·.timestamp)).getD 0))

/-- Source: the reverse search for a later answer that already carries a
computed processing time for the same question. -/
def hasExistingAnswer (thoughts : List Thought) (lq : Option Thought) : Option Thought :=
  thoughts.reverse.find? (existingAnswerPred lq)

/-- `parseFloat((ms / 1000).toFixed(2))` in centiseconds: round half-up to 10 ms. -/
def centisOfMs (ms : Nat) : Nat := (ms + 5) / 10

/-- Source `calculateProcessingTime` (`timerUtils.ts`): attaches the
question-to-answer delta to a freshly normalized answer Thought. -/
def calculateProcessingTime (e : EventData) (nt : Thought)
    (thoughts : List Thought) : Thought :=
  if (e.node == some "Answer" || e.category == some "result") && nt.timestamp.isSome then
    let lq := lastUserQuestion thoughts
    let hea := hasExistingAnswer thoughts lq
    match lq, nt.timestamp with
    | some q, some ntts =>
      match q.timestamp with
      | some qts =>
        if hea.isNone then
          if ntts > qts then
            let td1 :=
              { (nt.technical_details.getD {}) with
                processing_time_ms := some ((ntts : Int) - (qts : Int)),
                processing_time_sec := some (centisOfMs (ntts - qts)) }
            { nt with technical_details := some td1 }
          else nt
        else nt
      | none => nt
    | _, _ => nt
  else nt

/-- The timestamp of the most recent prior question Thought, when present. -/
def questionTs (thoughts : List Thought) : Option Nat :=
  (lastUserQuestion thoughts).bind (·.timestamp)

/-- State owned by the `useThoughtProcess` hook that `handleEventData` touches.
The screenshot store is an association list keyed by generated id. -/
structure TPState where
  thoughts : List Thought := []
  screenshots : List (String × String) := []
  connected : Bool := false
  errorMsg : Option String := none
  isComplete : Bool := false
  visualization : Option ChartDataField := none
deriving Repr, DecidableEq

/-- Events dispatched on the window by `handleEventData`. The content of a
result-completion is carried structurally (title and processing time). -/
inductive Dispatch where
  | taskStatus (status : String) (sessionId : String) (finalAnswer : Bool)
  | visualizationReady
  | thoughtCompletionResult (chartTitle : Option String) (pts : Option Nat) (sessionId : String)
  | thoughtCompletionAnswer (content : String) (sessionId : String)
deriving Repr, DecidableEq

/-- Screenshot extraction block of `handleEventData`: stores the payload under
a generated key and rewrites the Thought to reference it. -/
def screenshotExtract (now : Nat) (e : EventData) (nt : Thought) :
    Thought × List (String × String) :=
  if (e.category == some "screenshot" || e.category == some "visualization_data") &&
     e.technical_details.isSome &&
     (e.technical_details.bind (·.screenshot)).isSome then
    match e.technical_details.bind (·.screenshot) with
    | some sc =>
      if truthy sc.data then
        let shotId := "screenshot-" ++ toString now
        let url := resolveUrl e.technical_details
        let td1 :=
          { (nt.technical_details.getD {}) with
            screenshotId := some shotId, url := some url }
        let nt1 := { nt with technical_details := some td1 }
        let nt2 :=
          if url != "" && !(containsSub nt1.content url) then
            { nt1 with content := "Browser screenshot from: " ++ url }
          else nt1
        (nt2, [(shotId, sc.data.getD "")])
      else (nt, [])
    | none => (nt, [])
  else (nt, [])

/-- Visualization block of `handleEventData`: chart-data state update and the
dispatches it emits. -/
def visualizationBlock (sid : Option String) (e : EventData) (nt : Thought)
    (s : TPState) : TPState × List Dispatch :=
  if e.category == some "visualization_data" && e.visualization.isSome then
    let vis := e.visualization.getD {}
    let s1 := { s with visualization := vis.chart_data }
    match vis.chart_data with
    | some cd =>
      if truthy cd.chartType && cd.dataArray then
        if truthy sid then
          (s1, [Dispatch.visualizationReady,
                Dispatch.thoughtCompletionResult vis.chart_title
                  (tdPts nt.technical_details) (sid.getD "")])
        else (s1, [Dispatch.visualizationReady])
      else (s1, [])
    | none => (s1, [])
  else (s, [])

/-- Answer-completion block of `handleEventData`. -/
def answerDispatch (sid : Option String) (e : EventData) (nt : Thought) : List Dispatch :=
  if truthy sid &&
     ((e.node == some "Answer" || e.category == some "result") ||
      (e.type == some "answer" || e.type == some "result")) then
    [Dispatch.thoughtCompletionAnswer nt.content (sid.getD "")]
  else []

/-- The non-control, non-filtered tail of `handleEventData`: timestamp
defaulting, normalization, processing time, screenshot extraction,
visualization handling, completion dispatch, and the timeline append. -/
def processContentEvent (sid : Option String) (now : Nat) (s : TPState)
    (e : EventData) : TPState × List Dispatch :=
  let e1 := { e with timestamp := some (e.timestamp.getD now) }
  let nt0 := normalizeThoughtData now e1
  let nt1 := calculateProcessingTime e1 nt0 s.thoughts
  let pr := screenshotExtract now e1 nt1
  let vb := visualizationBlock sid e1 pr.1 s
  ({ vb.1 with thoughts := s.thoughts ++ [pr.1],
               screenshots := s.screenshots ++ pr.2 },
   vb.2 ++ answerDispatch sid e1 pr.1)

/-- Source `handleEventData` (`eventService.ts`): control-plane interception,
filtering, then the content pipeline. -/
def handleEventData (sid : Option String) (now : Nat) (s : TPState)
    (e : EventData) : TPState × List Dispatch :=
  if e.type == some "task_status" then
    if e.status == some "start" then
      (s, [Dispatch.taskStatus "start" (jsOrStr sid "") false])
    else if e.status == some "complete" || e.final_answer then
      (s, [Dispatch.taskStatus "complete" (jsOrStr sid "") e.final_answer])
    else (s, [])
  else if e.type == some "connected" then
    ({ s with connected := true, errorMsg := none }, [])
  else if e.type == some "error" then
    ({ s with errorMsg := e.message }, [])
  else if e.type == some "complete" then
    ({ s with isComplete := true }, [])
  else if shouldFilterEvent e then (s, [])
  else processContentEvent sid now s e

/-! Task-execution control state: the union of the `useChat` fields
(`sessionId`, `isThinking`, `thinkingStartTime`) and the `useAgentControl`
fields (`canStopAgent`, `isStopInProgress`, `isLoading`) that the stop
machinery touches. -/

/-- Combined client state for the task-execution state machine. -/
structure CtrlState where
  sessionId : Option String := none
  isThinking : Bool := false
  thinkingStartTime : Option Nat := none
  canStopAgent : Bool := false
  isStopInProgress : Bool := false
  agentLoading : Bool := false
deriving Repr, DecidableEq

/-- Payload of a `task-status-update` window event. -/
structure TaskDetail where
  status : String
  sessionId : String
  final_answer : Bool := false
deriving Repr, DecidableEq

/-- Effects of the stop machinery: the backend stop command, toast
notifications (by title), and locally dispatched task-status events. -/
inductive StopEff where
  | postStop (sid : String)
  | toast (title : String)
  | dispatched (d : TaskDetail)
deriving Repr, DecidableEq

/-- The `taskStatusUpdate` subscriber registered by `useChat`
(`eventSessionId === sessionId` guard, then start/complete handling). -/
def chatTaskSub (s : CtrlState) (d : TaskDetail) : CtrlState :=
  if s.sessionId == some d.sessionId then
    if d.status == "start" then { s with isThinking := true }
    else if d.status == "complete" then
      { s with isThinking := false, thinkingStartTime := none }
    else s
  else s

/-- The `taskStatusUpdate` subscriber registered by `BrowserControl`
(subscribed only while its `sessionId` prop is truthy; ignores the event's
session id). -/
def bcTaskSub (s : CtrlState) (d : TaskDetail) : CtrlState :=
  if truthy s.sessionId then
    if d.status == "start" then { s with canStopAgent := true }
    else if d.status == "complete" || d.status == "stopped" then
      { s with canStopAgent := false, isStopInProgress := false }
    else s
  else s

/-- Synchronous `dispatchEvent.taskStatusUpdate`: both subscribers run before
the dispatcher continues. -/
def dispatchTaskStatus (s : CtrlState) (d : TaskDetail) : CtrlState :=
  bcTaskSub (chatTaskSub s d) d

/-- Source `useAgentControl.stopAgent`: guard on session id and `canStopAgent`,
then the stop POST whose outcome is the oracle `respOk`. -/
def agentStopAgent (s : CtrlState) (respOk : Bool) : CtrlState × List StopEff :=
  if !(truthy s.sessionId) || !s.canStopAgent then (s, [])
  else
    let sid := s.sessionId.getD ""
    if respOk then
      ({ s with isStopInProgress := true, agentLoading := false },
       [StopEff.postStop sid, StopEff.toast "Stop requested"])
    else
      ({ s with agentLoading := false },
       [StopEff.postStop sid, StopEff.toast "Failed to stop agent"])

/-- Source `useChat.stopAgent`: while thinking, locally end the episode and
dispatch a `stopped` task-status event. -/
def chatStopAgent (s : CtrlState) : CtrlState × List StopEff :=
  if s.isThinking then
    let s1 := { s with isThinking := false, thinkingStartTime := none }
    let d : TaskDetail := { status := "stopped", sessionId := jsOrStr s.sessionId "" }
    (dispatchTaskStatus s1 d, [StopEff.dispatched d])
  else (s, [])

/-- Source `BrowserControl.handleStopAgent` with `onStopAgent` wired to
`useChat.stopAgent` (as in the analysis page). -/
def handleStopAgent (s : CtrlState) (respOk : Bool) : CtrlState × List StopEff :=
  let r1 := agentStopAgent s respOk
  let r2 := chatStopAgent r1.1
  (r2.1, r1.2 ++ r2.2)

/-- The Stop Agent menu affordance: negation of the source `disabled`
condition `!isThinking || !agentControl.canStopAgent || agentControl.isStopInProgress`. -/
def stopMenuEnabled (s : CtrlState) : Bool :=
  s.isThinking && s.canStopAgent && !s.isStopInProgress

/-- The local-state part of `useChat.handleSubmit`: guards on already
thinking or empty input, then flips to thinking and records the elapsed-time
start marker (network round trip abstracted away). -/
def handleSubmitLocal (s : CtrlState) (now : Nat) (inputNonempty : Bool) : CtrlState :=
  if s.isThinking then s
  else if !inputNonempty then s
  else { s with isThinking := true, thinkingStartTime := some now }

/-- Counts the backend stop commands in an effect list. -/
def countPostStop (effs : List StopEff) : Nat :=
  (effs.filter fun e => match e with | StopEff.postStop _ => true | _ => false).length

/-! Session lifecycle: `useChat.terminateSession` and the session-change
effect of `useThoughtProcess`. -/

/-- The `useChat` state that `terminateSession` touches; `messages` and
`queryDetails` are kept abstract as lists of opaque entries. -/
structure ChatSessionState where
  sessionId : Option String := none
  isThinking : Bool := false
  thinkingStartTime : Option Nat := none
  messages : List String := []
  queryDetails : List String := []
deriving Repr, DecidableEq

/-- Source `useChat.terminateSession`: throws without a session id, clears the
session-scoped chat state when the DELETE reports success, rethrows otherwise. -/
def terminateSession (c : ChatSessionState) (respSuccess : Bool) :
    Except String ChatSessionState :=
  if !(truthy c.sessionId) then Except.error "No active session to terminate"
  else if respSuccess then
    Except.ok { c with sessionId := none, isThinking := false, messages := [],
                       queryDetails := [], thinkingStartTime := none }
  else Except.error "Failed to terminate session"

/-- Close/open actions on the server-push channel (EventSource), recorded in
the order they are performed. A channel is identified by its session id. -/
inductive ConnAction where
  | closeCh (id : String)
  | openCh (id : String)
deriving Repr, DecidableEq

/-- Full `useThoughtProcess` hook state: the timeline state, the refs holding
the current EventSource and the previous session id, and the set `live` of
EventSource channels that have been opened and not yet closed. -/
structure HookState where
  tp : TPState := {}
  eventSourceRef : Option String := none
  previousSessionRef : Option String := none
  live : List String := []
deriving Repr, DecidableEq

/-- Source: the `useEffect` in `useThoughtProcess` that reacts to a session-id
change: close the previous channel, clear the timeline when switching away
from an earlier session, and open the channel for the new id. -/
def sessionChangeEffect (s : HookState) (sid : Option String) :
    HookState × List ConnAction :=
  if truthy sid && sid != s.previousSessionRef then
    let closes :=
      match s.eventSourceRef with
      | some c => [ConnAction.closeCh c]
      | none => []
    let live1 :=
      match s.eventSourceRef with
      | some c => s.live.erase c
      | none => s.live
    let tp1 :=
      if s.previousSessionRef.isSome then
        { s.tp with thoughts := [], screenshots := [] }
      else s.tp
    let tp2 := { tp1 with errorMsg := none, isComplete := false }
    let sidStr := sid.getD ""
    ({ tp := tp2, eventSourceRef := some sidStr,
       previousSessionRef := sid, live := live1 ++ [sidStr] },
     closes ++ [ConnAction.openCh sidStr])
  else (s, [])

/-- The ref discipline of the hook: the live-channel set is exactly the
channel held in `eventSourceRef`. -/
def wellFormed (s : HookState) : Prop :=
  match s.eventSourceRef with
  | some c => s.live = [c]
  | none => s.live = []

/-! Browser control: `useBrowserControl` hook plus the `BrowserControl`
component handlers, including the release-control recovery protocol. -/

/-- The polled browser state (`BrowserState` in the source, the fields this
layer reads). -/
structure BrowserStat where
  current_url : String := ""
  page_title : String := ""
  is_headless : Bool := true
deriving Repr, DecidableEq

/-- Combined state of `useBrowserControl` and the `BrowserControl` component
(`lastBrowserState` is the component's url/title snapshot). -/
structure BCState where
  sessionId : Option String := none
  isLoading : Bool := false
  hasActiveSession : Bool := false
  browserState : Option BrowserStat := none
  isUserControlInProgress : Bool := false
  lastBrowserState : Option (String × String) := none
deriving Repr, DecidableEq

/-- Externally visible effects of the browser-control handlers. Toasts carry
title and description; toasts produced through `ErrorHandler.handleError`
have title `"Error"` and are tagged here with the handler context string. -/
inductive BCEff where
  | apiTakeControl (sid : String)
  | apiReleaseControl (sid : String)
  | apiInitBrowser (sid : String) (headless : Bool) (url : Option String)
  | toast (title : String) (descr : String)
deriving Repr, DecidableEq

/-- Result of a hook action: new state, effects, and the thrown error if any. -/
structure BCOut where
  state : BCState
  effs : List BCEff
  err : Option String := none
deriving Repr, DecidableEq

/-- Source `checkBrowserStatus` (success path of the status API): store the
polled `has_active_session` and, when the response carries one, the browser
state. -/
def checkBrowserStatus (s : BCState) (active : Bool) (bs : Option BrowserStat) : BCState :=
  { s with hasActiveSession := active,
           browserState := match bs with | some b => some b | none => s.browserState }

/-- Source `useBrowserControl.takeControl`: session-id guard, POST, status
refresh and success toast, or rethrow after the `ErrorHandler` toast. -/
def takeControlHook (s : BCState) (takeOk : Bool) (polledActive : Bool)
    (polledState : Option BrowserStat) : BCOut :=
  if !(truthy s.sessionId) then
    { state := s, effs := [], err := some "No active session available" }
  else
    let sid := s.sessionId.getD ""
    if takeOk then
      { state := checkBrowserStatus
          { s with isLoading := false, isUserControlInProgress := false }
          polledActive polledState,
        effs := [BCEff.apiTakeControl sid,
                 BCEff.toast "Manual control activated" "Browser is now visible"] }
    else
      { state := { s with isLoading := false, isUserControlInProgress := false },
        effs := [BCEff.apiTakeControl sid, BCEff.toast "Error" "take_control"],
        err := some "Failed to take control" }

/-- Source `useBrowserControl.releaseControl`, same shape as `takeControl`. -/
def releaseControlHook (s : BCState) (releaseOk : Bool) (polledActive : Bool)
    (polledState : Option BrowserStat) : BCOut :=
  if !(truthy s.sessionId) then
    { state := s, effs := [], err := some "No active session available" }
  else
    let sid := s.sessionId.getD ""
    if releaseOk then
      { state := checkBrowserStatus
          { s with isLoading := false, isUserControlInProgress := false }
          polledActive polledState,
        effs := [BCEff.apiReleaseControl sid,
                 BCEff.toast "Control released" "Browser returned to headless mode."] }
    else
      { state := { s with isLoading := false, isUserControlInProgress := false },
        effs := [BCEff.apiReleaseControl sid, BCEff.toast "Error" "release_control"],
        err := some "Failed to release control" }

/-- Source `useBrowserControl.initializeBrowser`: session-id guard, the
initialize POST (session validation folded into the oracle `initOk`), status
refresh and toast on success. -/
def initializeBrowserHook (s : BCState) (headless : Bool) (url : Option String)
    (initOk : Bool) (polledActive : Bool) (polledState : Option BrowserStat) : BCOut :=
  if !(truthy s.sessionId) then
    { state := s, effs := [], err := some "No session ID provided" }
  else
    let sid := s.sessionId.getD ""
    if initOk then
      { state := checkBrowserStatus { s with isLoading := false } polledActive polledState,
        effs := [BCEff.apiInitBrowser sid headless url,
                 BCEff.toast "Browser initialized" "Browser session started"] }
    else
      { state := { s with isLoading := false },
        effs := [BCEff.apiInitBrowser sid headless url,
                 BCEff.toast "Error" "browser_initialization"],
        err := some "Failed to initialize browser" }

/-- Source `BrowserControl.handleTakeControl`: snapshot `{url, title}` from the
current browser state before issuing the request (failures are only logged). -/
def handleTakeControl (s : BCState) (takeOk : Bool) (polledActive : Bool)
    (polledState : Option BrowserStat) : BCState × List BCEff :=
  let s1 :=
    match s.browserState with
    | some bs =>
      if bs.current_url != "" then
        { s with lastBrowserState := some (bs.current_url, bs.page_title) }
      else s
    | none => s
  let r := takeControlHook s1 takeOk polledActive polledState
  (r.state, r.effs)

/-- Oracle outcomes for one `handleReleaseControl` run: the release POST, the
status re-poll performed after a failed release, and the recovery
initialization with its own post-init poll. -/
structure ReleaseOracle where
  releaseOk : Bool := true
  releasePolledActive : Bool := true
  releasePolledState : Option BrowserStat := none
  repollActive : Bool := true
  repollState : Option BrowserStat := none
  initOk : Bool := true
  initPolledActive : Bool := true
  initPolledState : Option BrowserStat := none
deriving Repr, DecidableEq

/-- Source `BrowserControl.handleReleaseControl`: try the release; on failure
re-poll the status and, when no browser session is active and a snapshot
exists, reinitialize a headless browser at the snapshotted URL, clear the
snapshot and surface the recovery toasts; otherwise surface the failure.

Closure semantics: the handler is an async closure over the render in which
the click happened. `browserControl` is a fresh object each render, so the
reads `browserControl.hasActiveSession` and `lastBrowserState` in the
recovery condition see the click-time values; the `setHasActiveSession`
performed by the re-poll inside this very handler updates hook state for
later renders but never mutates the captured object. The condition below is
therefore evaluated on the click-time snapshot `s`, not on the re-polled
state `s2` (which is still threaded on, since later renders do see it). -/
def handleReleaseControl (s : BCState) (o : ReleaseOracle) : BCState × List BCEff :=
  let r1 := releaseControlHook s o.releaseOk o.releasePolledActive o.releasePolledState
  match r1.err with
  | none => (r1.state, r1.effs)
  | some _relErr =>
    let s2 :=
      if truthy r1.state.sessionId then
        checkBrowserStatus r1.state o.repollActive o.repollState
      else r1.state
    if !s.hasActiveSession then
      match s.lastBrowserState with
      | some lb =>
        let ri := initializeBrowserHook s2 true (some lb.1) o.initOk
                    o.initPolledActive o.initPolledState
        match ri.err with
        | none =>
          ({ ri.state with lastBrowserState := none },
           r1.effs ++
             [BCEff.toast "Browser Recovery"
                "Browser was closed. Reinitializing with last known state..."] ++
             ri.effs ++
             [BCEff.toast "Browser Recovered"
                ("Browser reinitialized at " ++ lb.1)])
        | some _ =>
          (ri.state,
           r1.effs ++
             [BCEff.toast "Browser Recovery"
                "Browser was closed. Reinitializing with last known state..."] ++
             ri.effs ++
             [BCEff.toast "Error" "Failed to release control and recover browser."])
      | none =>
        (s2, r1.effs ++
              [BCEff.toast "Error" "Failed to release control and recover browser."])
    else
      (s2, r1.effs ++
            [BCEff.toast "Error" "Failed to release control and recover browser."])

/-! Spec-side vocabulary for claim C1 (refinement comparison): the
control-plane event set and the filtering rule, as the spec words them. -/

/-- Spec wording: an event is control-plane when its type is one of
connected, error, complete, task_status, ping, heartbeat. -/
def controlPlaneSpec (e : EventData) : Bool :=
  e.type == some "connected" || e.type == some "error" ||
  e.type == some "complete" || e.type == some "task_status" ||
  e.type == some "ping" || e.type == some "heartbeat"

/-- Spec wording: an event is filtered exactly when its type is not in the
recognized type set AND its node is not in the recognized node set AND its
category is none of screenshot, visualization_data, user_control. -/
def filteredSpec (e : EventData) : Bool :=
  !(memOpt validTypes e.type) && !(memOpt validNodes e.node) &&
  e.category != some "screenshot" &&
  e.category != some "visualization_data" &&
  e.category != some "user_control"

/-- The code filter agrees with the spec filter up to the ping/heartbeat
short-circuit. -/
lemma shouldFilterEvent_eq (e : EventData) :
    shouldFilterEvent e =
      ((e.type == some "ping" || e.type == some "heartbeat") || filteredSpec e) := by
  unfold shouldFilterEvent filteredSpec
  by_cases h : (e.type == some "ping" || e.type == some "heartbeat") = true
  · simp [h]
  · simp only [Bool.not_eq_true] at h
    cases hc : (!(memOpt validTypes e.type) && !(memOpt validNodes e.node) &&
        e.category != some "screenshot" &&
        e.category != some "visualization_data" &&
        e.category != some "user_control") <;> simp [h, hc]

/-- The thoughts list produced by the content pipeline is the old list with
exactly one Thought appended. -/
lemma processContentEvent_thoughts (sid : Option String) (now : Nat)
    (s : TPState) (e : EventData) :
    (processContentEvent sid now s e).1.thoughts =
      s.thoughts ++
        [(screenshotExtract now { e with timestamp := some (e.timestamp.getD now) }
            (calculateProcessingTime { e with timestamp := some (e.timestamp.getD now) }
              (normalizeThoughtData now { e with timestamp := some (e.timestamp.getD now) })
              s.thoughts)).1] := rfl

/-- The timeline part of `handleEventData`: unchanged on control-plane or
filtered events, one appended Thought otherwise. -/
lemma handleEventData_thoughts (sid : Option String) (now : Nat) (s : TPState)
    (e : EventData) :
    (handleEventData sid now s e).1.thoughts =
      (if controlPlaneSpec e || shouldFilterEvent e then s.thoughts
       else (processContentEvent sid now s e).1.thoughts) := by
  unfold handleEventData controlPlaneSpec
  by_cases h1 : (e.type == some "task_status") = true
  · simp only [h1, if_true, Bool.or_true, Bool.true_or, if_pos]
    split
    · rfl
    · split <;> rfl
  · by_cases h2 : (e.type == some "connected") = true
    · simp [h1, h2]
    · by_cases h3 : (e.type == some "error") = true
      · simp [h1, h2, h3]
      · by_cases h4 : (e.type == some "complete") = true
        · simp [h1, h2, h3, h4]
        · by_cases h5 : shouldFilterEvent e = true
          · have hph : (e.type == some "ping" || e.type == some "heartbeat") = true ∨
                filteredSpec e = true := by
              rw [shouldFilterEvent_eq] at h5
              rcases Bool.or_eq_true_iff.mp h5 with h | h
              · exact Or.inl h
              · exact Or.inr h
            simp [h1, h2, h3, h4, h5]
          · have hph : (e.type == some "ping") = false ∧
                (e.type == some "heartbeat") = false := by
              rw [shouldFilterEvent_eq] at h5
              simp only [Bool.not_eq_true, Bool.or_eq_false_iff] at h5
              exact ⟨h5.1.1, h5.1.2⟩
            simp [h1, h2, h3, h4, h5, hph.1, hph.2]

/-- Absorption: the ping/heartbeat short-circuit of the code filter is part of
the spec's control-plane set. -/
lemma control_or_filter_eq (e : EventData) :
    (controlPlaneSpec e || shouldFilterEvent e) = (controlPlaneSpec e || filteredSpec e) := by
  rw [shouldFilterEvent_eq]
  unfold controlPlaneSpec
  cases h1 : (e.type == some "ping") <;> cases h2 : (e.type == some "heartbeat") <;>
    simp [h1, h2]

/-- Claim C1: a Thought is appended to the timeline if and only if the event
is not a control-plane event (type in connected, error, complete,
task_status, ping, heartbeat) and not filtered (type unrecognized AND node
unrecognized AND category none of screenshot, visualization_data,
user_control); in particular ping and heartbeat events leave the timeline
unchanged. -/
theorem c1_thought_appended_iff (sid : Option String) (now : Nat) (s : TPState)
    (e : EventData) :
    (handleEventData sid now s e).1.thoughts.length =
      s.thoughts.length + (if controlPlaneSpec e || filteredSpec e then 0 else 1) ∧
    ((e.type = some "ping" ∨ e.type = some "heartbeat") →
      (handleEventData sid now s e).1.thoughts = s.thoughts) := by
  have hk := handleEventData_thoughts sid now s e
  rw [control_or_filter_eq] at hk
  constructor
  · rw [hk]
    cases hc : (controlPlaneSpec e || filteredSpec e) <;>
      simp [hc, processContentEvent_thoughts]
  · intro hp
    have hcp : controlPlaneSpec e = true := by
      unfold controlPlaneSpec
      rcases hp with h | h <;> simp [h]
    rw [hk, hcp]
    simp

/-- Witness for C1 at a concrete heartbeat-style input. -/
theorem c1_thought_appended_iff_witness :
    (handleEventData none 0 {} { type := some "ping" }).1.thoughts =
      ({} : TPState).thoughts :=
  (c1_thought_appended_iff none 0 {} { type := some "ping" }).2 (Or.inl rfl)

/-- Claim C10: invoking the agent stop operation without a session id or with
the can-stop flag false is a silent no-op — no backend command, no
notification, no state change. -/
theorem c10_stop_guard_noop (s : CtrlState) (respOk : Bool)
    (h : truthy s.sessionId = false ∨ s.canStopAgent = false) :
    agentStopAgent s respOk = (s, []) := by
  unfold agentStopAgent
  rcases h with h | h <;> simp [h]

/-- Witness for C10 at the initial state (no session id). -/
theorem c10_stop_guard_noop_witness :
    agentStopAgent {} true = ({}, []) :=
  c10_stop_guard_noop {} true (Or.inl rfl)

/-- Claim C8: delivering `task_status start` twice in a row for the current
session is idempotent — the state after the second delivery equals the state
after the first, the task is thinking, and the elapsed-time start marker is
untouched by either delivery. -/
theorem c8_task_start_idempotent (s : CtrlState) (sid : String)
    (hs : s.sessionId = some sid) :
    dispatchTaskStatus (dispatchTaskStatus s { status := "start", sessionId := sid })
        { status := "start", sessionId := sid } =
      dispatchTaskStatus s { status := "start", sessionId := sid } ∧
    (dispatchTaskStatus s { status := "start", sessionId := sid }).isThinking = true ∧
    (dispatchTaskStatus s { status := "start", sessionId := sid }).thinkingStartTime =
      s.thinkingStartTime := by
  unfold dispatchTaskStatus chatTaskSub bcTaskSub
  cases h : truthy s.sessionId <;> simp [hs, truthy] at h ⊢ <;> simp [h]

/-- Witness for C8 at a concrete session and state. -/
theorem c8_task_start_idempotent_witness :
    (dispatchTaskStatus { sessionId := some "s1" }
        { status := "start", sessionId := "s1" }).isThinking = true :=
  (c8_task_start_idempotent { sessionId := some "s1" } "s1" rfl).2.1

/-- An idle state holding a session id, and the state right after a local
submit, before any remote `task_status start` arrived. -/
def c3AfterSubmit : CtrlState :=
  handleSubmitLocal { sessionId := some "s1" } 1000 true

/-- Claim C3 counterexample: right after a local submit the task state is
thinking and no stop request is outstanding, yet the can-stop affordance is
false (the menu item is disabled because `canStopAgent` is only set by a
remote `task_status start`), refuting the claimed "if and only if". -/
theorem c3_counterexample :
    c3AfterSubmit.isThinking = true ∧ c3AfterSubmit.isStopInProgress = false ∧
    stopMenuEnabled c3AfterSubmit = false := by
  exact ⟨rfl, rfl, rfl⟩

/-- Claim C3 (amended): the can-stop affordance is true iff the task state is
thinking AND the backend has reported task start (the can-stop flag) AND no
stop request is outstanding; the affordance still implies thinking with no
outstanding stop, and invoking the stop operation twice within the same
thinking episode issues exactly one stop command to the backend. -/
theorem c3_amended (s : CtrlState) (r1 r2 : Bool)
    (hsid : truthy s.sessionId = true) (hth : s.isThinking = true)
    (hcan : s.canStopAgent = true) (hnip : s.isStopInProgress = false) :
    stopMenuEnabled s = true ∧
    (∀ st : CtrlState, stopMenuEnabled st = true →
       st.isThinking = true ∧ st.isStopInProgress = false) ∧
    countPostStop ((handleStopAgent s r1).2 ++
        (handleStopAgent (handleStopAgent s r1).1 r2).2) = 1 := by
  obtain ⟨sid, th, tst, can, sip, ld⟩ := s
  simp only at hth hcan hnip
  subst hth; subst hcan; subst hnip
  rcases sid with _ | x
  · exact absurd hsid (by simp [truthy])
  · have hx : (x == "") = false := by
      simpa [truthy, bne] using hsid
    refine ⟨rfl, ?_, ?_⟩
    · intro st h
      unfold stopMenuEnabled at h
      simp only [Bool.and_eq_true, Bool.not_eq_true'] at h
      exact ⟨h.1.1, h.2⟩
    · cases r1 <;> cases r2 <;>
        simp [handleStopAgent, agentStopAgent, chatStopAgent, dispatchTaskStatus,
              chatTaskSub, bcTaskSub, countPostStop, truthy, jsOrStr, hx, bne]

/-- Witness for C3 (amended) at a concrete thinking episode. -/
theorem c3_amended_witness :
    stopMenuEnabled { sessionId := some "s1", isThinking := true,
                      canStopAgent := true } = true :=
  (c3_amended { sessionId := some "s1", isThinking := true, canStopAgent := true }
    true true rfl rfl rfl rfl).1

/-- A thinking episode with the stop affordance available. -/
def c4Episode : CtrlState :=
  { sessionId := some "s1", isThinking := true, thinkingStartTime := some 5,
    canStopAgent := true }

/-- Claim C4 counterexample: invoking the stop operation during a thinking
episode leaves the task neither thinking nor stop-requested — the local stop
itself reaches the idle state without waiting for any remote signal,
refuting "after the stop operation completes locally, the task is not idle". -/
theorem c4_counterexample :
    (handleStopAgent c4Episode true).1.isThinking = false ∧
    (handleStopAgent c4Episode true).1.isStopInProgress = false ∧
    (handleStopAgent c4Episode true).1.thinkingStartTime = none := by
  exact ⟨rfl, rfl, rfl⟩

/-- Claim C4 (amended): a local stop request issued while thinking issues the
stop command and immediately ends the episode locally — the task state
becomes idle (not thinking, start marker cleared, can-stop and
stop-in-progress cleared) through a locally dispatched `stopped` status,
without waiting for a remote completion or stopped signal. -/
theorem c4_amended (s : CtrlState) (r : Bool)
    (hsid : truthy s.sessionId = true) (hth : s.isThinking = true)
    (hcan : s.canStopAgent = true) (hnip : s.isStopInProgress = false) :
    (handleStopAgent s r).1.isThinking = false ∧
    (handleStopAgent s r).1.thinkingStartTime = none ∧
    (handleStopAgent s r).1.canStopAgent = false ∧
    (handleStopAgent s r).1.isStopInProgress = false ∧
    StopEff.dispatched { status := "stopped", sessionId := jsOrStr s.sessionId "" } ∈
      (handleStopAgent s r).2 := by
  obtain ⟨sid, th, tst, can, sip, ld⟩ := s
  simp only at hth hcan hnip
  subst hth; subst hcan; subst hnip
  rcases sid with _ | x
  · exact absurd hsid (by simp [truthy])
  · have hx : (x == "") = false := by
      simpa [truthy, bne] using hsid
    cases r <;>
      simp [handleStopAgent, agentStopAgent, chatStopAgent, dispatchTaskStatus,
            chatTaskSub, bcTaskSub, truthy, jsOrStr, hx, bne]

/-- Witness for C4 (amended) at a concrete thinking episode. -/
theorem c4_amended_witness :
    (handleStopAgent { sessionId := some "s2", isThinking := true,
                       canStopAgent := true } false).1.isThinking = false :=
  (c4_amended { sessionId := some "s2", isThinking := true, canStopAgent := true }
    false rfl rfl rfl rfl).1

/-- A populated timeline entry used in the termination scenario. -/
def c5Thought : Thought :=
  { id := "t1", type := some "question", node := some "User", content := "hi",
    timestamp := some 0 }

/-- Chat state with an active session before termination. -/
def c5Chat : ChatSessionState :=
  { sessionId := some "s1", isThinking := true, messages := ["hi"] }

/-- Hook state with a non-empty timeline and screenshot store for session s1. -/
def c5Hook : HookState :=
  { tp := { thoughts := [c5Thought], screenshots := [("shot1", "img")] },
    eventSourceRef := some "s1", previousSessionRef := some "s1", live := ["s1"] }

/-- Claim C5 counterexample: a successful `terminate()` clears the session id,
but re-running the session-change effect with the now-absent session id
leaves the Thought timeline and the screenshot store non-empty — they are not
cleared by termination. -/
theorem c5_counterexample :
    terminateSession c5Chat true =
      Except.ok { sessionId := none, isThinking := false, messages := [],
                  queryDetails := [], thinkingStartTime := none } ∧
    (sessionChangeEffect c5Hook none).1.tp.thoughts = [c5Thought] ∧
    (sessionChangeEffect c5Hook none).1.tp.screenshots = [("shot1", "img")] := by
  exact ⟨rfl, rfl, rfl⟩

/-- Claim C5 (amended): on success `terminate()` clears the session id, resets
the task state to idle and clears the chat messages and query details; the
Thought timeline and the screenshot store are NOT cleared by termination —
the session-change effect is a no-op when the session id becomes unset, and
the timeline and store are cleared only when a different non-empty session id
is later established. -/
theorem c5_amended (c : ChatSessionState) (h : HookState) (sid : String)
    (hsid : c.sessionId = some sid) (hne : sid ≠ "") :
    terminateSession c true =
      Except.ok { c with sessionId := none, isThinking := false, messages := [],
                         queryDetails := [], thinkingStartTime := none } ∧
    sessionChangeEffect h none = (h, []) ∧
    (∀ (h2 : HookState) (nsid : String), nsid ≠ "" →
       h2.previousSessionRef.isSome → some nsid ≠ h2.previousSessionRef →
       (sessionChangeEffect h2 (some nsid)).1.tp.thoughts = [] ∧
       (sessionChangeEffect h2 (some nsid)).1.tp.screenshots = []) := by
  refine ⟨?_, ?_, ?_⟩
  · unfold terminateSession truthy
    simp [hsid, hne]
  · unfold sessionChangeEffect truthy
    simp
  · intro h2 nsid hn hprev hneq
    unfold sessionChangeEffect
    have h1 : truthy (some nsid) = true := by simpa [truthy, bne] using hn
    have h2b : ((some nsid : Option String) != h2.previousSessionRef) = true := by
      simpa [bne] using hneq
    simp [h1, h2b, hprev]

/-- Witness for C5 (amended) at concrete states. -/
theorem c5_amended_witness :
    sessionChangeEffect c5Hook none = (c5Hook, []) :=
  (c5_amended c5Chat c5Hook "s1" rfl (by decide)).2.1

/-- Claim C7: at most one push channel is live at any time — opening with a
different session id closes the previous channel before establishing the new
one, opening with the current session id is a no-op, and the session-change
effect preserves the single-live-channel discipline. -/
theorem c7_single_live_channel (s : HookState) (x : String) (hx : x ≠ "")
    (hwf : wellFormed s) :
    (s.previousSessionRef = some x → sessionChangeEffect s (some x) = (s, [])) ∧
    (s.previousSessionRef ≠ some x →
      (sessionChangeEffect s (some x)).2 =
        (match s.eventSourceRef with
         | some c => [ConnAction.closeCh c]
         | none => []) ++ [ConnAction.openCh x] ∧
      (sessionChangeEffect s (some x)).1.live = [x] ∧
      wellFormed (sessionChangeEffect s (some x)).1) ∧
    (∀ sid : Option String, wellFormed (sessionChangeEffect s sid).1 ∧
       (sessionChangeEffect s sid).1.live.length ≤ 1) := by
  have htr : truthy (some x) = true := by simpa [truthy, bne] using hx
  refine ⟨?_, ?_, ?_⟩
  · intro hp
    unfold sessionChangeEffect
    simp [hp]
  · intro hp
    have hb : ((some x : Option String) != s.previousSessionRef) = true := by
      simpa [bne] using fun hcontra => hp hcontra.symm
    unfold sessionChangeEffect
    rcases hr : s.eventSourceRef with _ | c
    · have hl : s.live = [] := by
        unfold wellFormed at hwf
        rw [hr] at hwf
        exact hwf
      simp [htr, hb, hr, hl, wellFormed]
    · have hl : s.live = [c] := by
        unfold wellFormed at hwf
        rw [hr] at hwf
        exact hwf
      simp [htr, hb, hr, hl, wellFormed, List.erase]
  · intro sid
    unfold sessionChangeEffect
    by_cases hcond : (truthy sid && sid != s.previousSessionRef) = true
    · rcases hr : s.eventSourceRef with _ | c
      · have hl : s.live = [] := by
          unfold wellFormed at hwf
          rw [hr] at hwf
          exact hwf
        simp [hcond, hr, hl, wellFormed]
      · have hl : s.live = [c] := by
          unfold wellFormed at hwf
          rw [hr] at hwf
          exact hwf
        simp [hcond, hr, hl, wellFormed, List.erase]
    · simp only [Bool.not_eq_true] at hcond
      constructor
      · simpa [hcond] using hwf
      · rcases hr : s.eventSourceRef with _ | c <;>
          unfold wellFormed at hwf <;> rw [hr] at hwf <;> simp [hcond, hwf]

/-- Hook state holding a live channel for session a. -/
def c7Hook : HookState :=
  { eventSourceRef := some "a", previousSessionRef := some "a", live := ["a"] }

/-- Witness for C7: switching from session a to session b closes a's channel
before opening b's. -/
theorem c7_single_live_channel_witness :
    (sessionChangeEffect c7Hook (some "b")).2 =
      [ConnAction.closeCh "a", ConnAction.openCh "b"] :=
  ((c7_single_live_channel c7Hook "b" (by decide) (by exact rfl)).2.1 (by decide)).1

/-- A `tool_call` event for the `act` tool with instruction "click". -/
def c9ActEvent : EventData :=
  { type := some "tool_call",
    technical_details :=
      some { tool_name := some "act",
             arguments := some { instruction := some "click" } } }

/-- Claim C9 counterexample: the `act` tool renders its instruction wrapped in
double quotes, so the content is `Instructing browser: "click"` and not the
claimed `Instructing browser: click`. -/
theorem c9_counterexample :
    (normalizeThoughtData 0 c9ActEvent).content = "Instructing browser: \"click\"" ∧
    (normalizeThoughtData 0 c9ActEvent).content ≠ "Instructing browser: click" := by
  constructor
  · rfl
  · decide

/-- Claim C9 (amended): for a `tool_call` event carrying a tool name that is
not screenshot-bearing (its category is not screenshot, and when its category
is visualization_data it carries no screenshot payload), normalization yields
node Agent and category tool; the `act` tool with a string instruction
renders as `Instructing browser: "<instruction>"` (instruction in double
quotes), the `navigate` tool with a url renders as
`Navigating to: <url>`, and unknown tool names keep the event's original
content. -/
theorem c9_amended (now : Nat) (e : EventData) (td : TechDetails) (tn : String)
    (h1 : e.type = some "tool_call") (h2 : e.technical_details = some td)
    (h3 : td.tool_name = some tn) (h4 : tn ≠ "")
    (h5 : e.category ≠ some "screenshot")
    (h6 : e.category = some "visualization_data" → td.screenshot = none) :
    (normalizeThoughtData now e).node = some "Agent" ∧
    (normalizeThoughtData now e).category = some "tool" ∧
    (∀ args i, td.arguments = some args → tn = "act" → args.instruction = some i →
       (normalizeThoughtData now e).content = "Instructing browser: \"" ++ i ++ "\"") ∧
    (∀ args u, td.arguments = some args → tn = "navigate" → args.url = some u →
       (normalizeThoughtData now e).content = "Navigating to: " ++ u) ∧
    (tn ≠ "act" → tn ≠ "navigate" → tn ≠ "extract_data" →
       (normalizeThoughtData now e).content = jsOrStr e.content "") := by
  have hq : (e.type == some "question") = false := by
    rw [h1]; decide
  have hv : (e.type == some "visualization") = false := by
    rw [h1]; decide
  have hsc : (e.category == some "screenshot") = false := by
    simpa using h5
  have hvd : (e.category == some "visualization_data" &&
      (e.technical_details.bind (·.screenshot)).isSome) = false := by
    by_cases hcat : e.category = some "visualization_data"
    · have hshot := h6 hcat
      simp [h2, hshot]
    · simp [hcat]
  have htc : (e.type == some "tool_call") = true := by
    rw [h1]; decide
  have htn : truthy (e.technical_details.bind (·.tool_name)) = true := by
    simp [h2, h3, truthy, bne, h4]
  have hget : (e.technical_details.bind (·.tool_name)).getD "" = tn := by
    simp [h2, h3]
  unfold normalizeThoughtData
  simp only [hq, hv, hsc, hvd, htc, htn, Bool.false_or, Bool.or_false,
    Bool.and_true, Bool.true_and, Bool.and_false, if_false, if_true]
  rw [hget]
  refine ⟨rfl, rfl, ?_, ?_, ?_⟩
  · intro args i hargs htn2 hi
    subst htn2
    simp [h2, hargs, hi]
  · intro args u hargs htn2 hu
    subst htn2
    simp [h2, hargs, hu]
  · intro hna hnn hne
    have ha : (tn == "act") = false := by simpa using hna
    have hn : (tn == "navigate") = false := by simpa using hnn
    have hx : (tn == "extract_data") = false := by simpa using hne
    simp [ha, hn, hx]

/-- A `tool_call` event for the `navigate` tool targeting example.com. -/
def c9NavEvent : EventData :=
  { type := some "tool_call",
    technical_details :=
      some { tool_name := some "navigate",
             arguments := some { url := some "https://example.com" } } }

/-- Witness for C9 (amended): the navigate tool call from the spec example. -/
theorem c9_amended_witness :
    (normalizeThoughtData 0 c9NavEvent).node = some "Agent" ∧
    (normalizeThoughtData 0 c9NavEvent).content = "Navigating to: https://example.com" := by
  have h := c9_amended 0 c9NavEvent
    { tool_name := some "navigate", arguments := some { url := some "https://example.com" } }
    "navigate" rfl rfl rfl (by decide) (by decide) (fun hc => by cases hc)
  exact ⟨h.1, h.2.2.2.1 { url := some "https://example.com" } "https://example.com" rfl rfl rfl⟩

/-- The existing-answer search returns nothing when there is no prior question
to compare against. -/
lemma hasExistingAnswer_no_question (thoughts : List Thought) :
    hasExistingAnswer thoughts none = none := by
  unfold hasExistingAnswer
  apply List.find?_eq_none.mpr
  intro t _
  simp [existingAnswerPred]

/-- The existing-answer search returns nothing when the prior question has no
timestamp. -/
lemma hasExistingAnswer_no_question_ts (thoughts : List Thought) (q : Thought)
    (hq : q.timestamp = none) :
    hasExistingAnswer thoughts (some q) = none := by
  unfold hasExistingAnswer
  apply List.find?_eq_none.mpr
  intro t _
  simp [existingAnswerPred, hq]

/-- Claim C6: for an incoming final-answer event the normalized Thought's
processing time equals the two-decimal delta between its timestamp and that
of the most recent prior question Thought, provided such a question exists,
the delta is strictly positive, and no later Answer already carries a
computed processing time; otherwise the Thought is left unchanged — in
particular a second Answer for the same question is never re-timed. -/
theorem c6_processing_time (e : EventData) (nt : Thought) (thoughts : List Thought)
    (ntts : Nat) (hAns : e.node = some "Answer" ∨ e.category = some "result")
    (hts : nt.timestamp = some ntts) :
    (∀ qts, questionTs thoughts = some qts →
       hasExistingAnswer thoughts (lastUserQuestion thoughts) = none →
       ntts > qts →
       tdPts (calculateProcessingTime e nt thoughts).technical_details =
         some (centisOfMs (ntts - qts)) ∧
       ((calculateProcessingTime e nt thoughts).technical_details.bind
           (·.processing_time_ms)) = some ((ntts : Int) - (qts : Int))) ∧
    (questionTs thoughts = none → calculateProcessingTime e nt thoughts = nt) ∧
    (hasExistingAnswer thoughts (lastUserQuestion thoughts) ≠ none →
       calculateProcessingTime e nt thoughts = nt) ∧
    (∀ qts, questionTs thoughts = some qts → ¬ ntts > qts →
       calculateProcessingTime e nt thoughts = nt) := by
  have hcond : ((e.node == some "Answer" || e.category == some "result") &&
      nt.timestamp.isSome) = true := by
    rcases hAns with h | h <;> simp [h, hts]
  unfold calculateProcessingTime
  simp only [hcond, if_true]
  rcases hlq : lastUserQuestion thoughts with _ | q
  · have hqts : questionTs thoughts = none := by
      unfold questionTs
      rw [hlq]
      rfl
    have hhea := hasExistingAnswer_no_question thoughts
    refine ⟨?_, ?_, ?_, ?_⟩
    · intro qts hq
      rw [hqts] at hq
      cases hq
    · intro _
      rw [hts]
    · intro hne
      exact absurd hhea hne
    · intro qts hq
      rw [hqts] at hq
      cases hq
  · rcases hq : q.timestamp with _ | qts
    · have hqts : questionTs thoughts = none := by
        unfold questionTs
        rw [hlq]
        simp [hq]
      have hhea := hasExistingAnswer_no_question_ts thoughts q hq
      refine ⟨?_, ?_, ?_, ?_⟩
      · intro qts2 hq2
        rw [hqts] at hq2
        cases hq2
      · intro _
        rw [hts]
        simp [hq]
      · intro hne
        exact absurd hhea hne
      · intro qts2 hq2
        rw [hqts] at hq2
        cases hq2
    · have hqts : questionTs thoughts = some qts := by
        unfold questionTs
        rw [hlq]
        simp [hq]
      refine ⟨?_, ?_, ?_, ?_⟩
      · intro qts2 hq2 hhea hgt
        rw [hqts] at hq2
        injection hq2 with hq2
        subst hq2
        rw [hts]
        simp [hq, hhea, hgt, tdPts]
      · intro hq2
        rw [hqts] at hq2
        cases hq2
      · intro hne
        rw [hts]
        rcases hhea : hasExistingAnswer thoughts (some q) with _ | w
        · exact absurd hhea hne
        · simp [hq, hhea]
      · intro qts2 hq2 hngt
        rw [hqts] at hq2
        injection hq2 with hq2
        subst hq2
        rw [hts]
        simp [hq, hngt]

/-- The spec's worked example: a question Thought at t = 0 ms. -/
def c6Question : Thought :=
  { id := "q1", type := some "question", node := some "User", content := "go",
    timestamp := some 0 }

/-- The spec's worked example: an Answer Thought arriving at t = 2500 ms. -/
def c6Answer : Thought :=
  { id := "a1", type := some "answer", node := some "Answer", content := "done",
    timestamp := some 2500 }

/-- Witness for C6: the 2.5-second answer gets processing time 2.50 s. -/
theorem c6_processing_time_witness :
    tdPts (calculateProcessingTime { node := some "Answer" } c6Answer
        [c6Question]).technical_details = some 250 :=
  ((c6_processing_time { node := some "Answer" } c6Answer [c6Question] 2500
      (Or.inl rfl) rfl).1 0 rfl rfl (by decide)).1

/-- The recovery branch is guarded by the click-time `hasActiveSession`: when
the handler runs from a render in which the browser session was active (the
only renders in which the Release Control item is enabled,
`disabled={!hasActiveSession}`), a failing release surfaces the bare failure
toast, clears no snapshot, and issues no reinitialization — whatever the
re-poll reports. -/
lemma release_bare_failure_when_active (s : BCState) (o : ReleaseOracle)
    (hact : s.hasActiveSession = true) (hro : o.releaseOk = false)
    (hsid : truthy s.sessionId = true) :
    (handleReleaseControl s o).1.lastBrowserState = s.lastBrowserState ∧
    BCEff.toast "Error" "Failed to release control and recover browser." ∈
      (handleReleaseControl s o).2 ∧
    (∀ sid hd u, BCEff.apiInitBrowser sid hd u ∉ (handleReleaseControl s o).2) := by
  refine ⟨?_, ?_, ?_⟩ <;>
    simp [handleReleaseControl, releaseControlHook, checkBrowserStatus,
          hact, hro, hsid]

/-- Concrete pre-state for the C2 scenario: active headless browser at a.test
(the Release Control item is enabled only because `hasActiveSession` holds). -/
def c2State : BCState :=
  { sessionId := some "s9", hasActiveSession := true,
    browserState := some { current_url := "https://a.test", page_title := "A" } }

/-- The browser state reported by the poll right after taking control. -/
def c2TakenState : BrowserStat :=
  { current_url := "https://a.test", page_title := "A", is_headless := false }

/-- Oracle for the C2 scenario: release fails, the re-poll reports no active
session, and reinitialization would succeed if requested. -/
def c2Oracle : ReleaseOracle :=
  { releaseOk := false, repollActive := false, initOk := true }

/-- Claim C2 evaluated at the failing input: `takeControl()` succeeds after
snapshotting a.test while the session is active, `releaseControl()` fails and
the re-poll reports no active session — yet no headless browser is
reinitialized at the snapshotted URL, the snapshot is not cleared, no
"Browser Recovered" notification appears, and only the bare failure toast is
surfaced: the recovery condition reads the click-time `hasActiveSession`,
which is true whenever the Release item is clickable. -/
theorem c2_recovery_unreachable :
    (handleTakeControl c2State true true (some c2TakenState)).1.lastBrowserState =
      some ("https://a.test", "A") ∧
    (handleTakeControl c2State true true (some c2TakenState)).1.hasActiveSession = true ∧
    (handleReleaseControl (handleTakeControl c2State true true (some c2TakenState)).1
        c2Oracle).1.lastBrowserState = some ("https://a.test", "A") ∧
    BCEff.apiInitBrowser "s9" true (some "https://a.test") ∉
      (handleReleaseControl (handleTakeControl c2State true true (some c2TakenState)).1
        c2Oracle).2 ∧
    BCEff.toast "Browser Recovered" "Browser reinitialized at https://a.test" ∉
      (handleReleaseControl (handleTakeControl c2State true true (some c2TakenState)).1
        c2Oracle).2 ∧
    BCEff.toast "Error" "Failed to release control and recover browser." ∈
      (handleReleaseControl (handleTakeControl c2State true true (some c2TakenState)).1
        c2Oracle).2 := by
  refine ⟨rfl, rfl, rfl, ?_, ?_, ?_⟩ <;> decide

end BrowserNova
